import Mathlib

/-!
Verification of the probabilistic download orchestrator in
src/download_script.py (repository a0a7/modrinthdownloads).

The script is shallowly embedded as follows.

* Python's global `random` module is a deterministic pseudorandom stream:
  after `random.seed(s)`, the n-th call to `random.random()` yields a value
  that is a pure function of `s` and `n`.  We model the module state as
  `RState` (current seed plus number of draws made) and the stream itself as
  the abstract field `Env.rand : seed -> index -> Rat`, constrained to [0,1)
  exactly as `random.random()` is.  `random.uniform a b` is
  `a + (b - a) * random.random()` as in CPython.
* `math.sin (week / 2.0)` is the abstract field `Env.sinHalfWeek`, bounded
  by 1 in absolute value.  `now.isocalendar()[1]` is the abstract field
  `Env.isoWeek`, a pure function of the wall-clock second.
* The external world (registry responses, download/tool outcomes) is the
  `World` structure; every adapter result is a `Bool` exactly as each
  Python download helper returns `True`/`False` and never raises.  The
  HTTP existence probes return an `HttpResult` (a status code, or a raised
  exception).
* `main` returns the `results` list (task name and outcome, where the
  Python code appends `True`/`False`/"skipped") together with the trace of
  external fetch calls made, as a pure function of `Env`, `World` and the
  wall-clock second `ts`.  The fixed cutoff `1762339200` and the per-minute
  seed `ts / 60` are taken verbatim from the source.
* `download_npm_package` and `download_github_npm_package` additionally get
  process-level models (`..._proc`) that track the working directory
  through the `os.chdir`/`try`/`finally` structure of the source, with an
  explicit alternative for each exit path of `subprocess.run`.
-/

namespace DownloadScript

/-- Outcome stored in the `results` list: the Python code appends the
boolean returned by a download helper, or the string "skipped". -/
inductive Outcome where
  | success
  | failure
  | skipped
  deriving DecidableEq, Repr

/-- Embed the boolean returned by a download helper into `Outcome`. -/
def Outcome.ofBool (b : Bool) : Outcome :=
  if b then Outcome.success else Outcome.failure

/-- A task is either triggered (its adapter ran, successfully or not) or
skipped by its probability draw. -/
inductive Decision where
  | triggered
  | skipped
  deriving DecidableEq, Repr

/-- Collapse an outcome to the triggered/skipped decision. -/
def decisionOf : Outcome → Decision
  | Outcome.success => Decision.triggered
  | Outcome.failure => Decision.triggered
  | Outcome.skipped => Decision.skipped

/-- Result of an HTTP GET existence probe (`requests.get`): either a
response with a status code, or a raised exception. -/
inductive HttpResult where
  | ok (status : ℕ)
  | exn
  deriving DecidableEq, Repr

/-- Outcome of a `subprocess.run` invocation: process exit with a return
code, a raised `TimeoutExpired`, or any other raised exception. -/
inductive SubprocResult where
  | exit (code : ℤ)
  | timeout
  | exn
  deriving DecidableEq, Repr

/-- External fetch calls the script can make (the trace of side effects). -/
inductive Call where
  | hfDataset (repo : String)
  | hfModel (repo : String)
  | npmCheck (name : String)
  | npmPack (name : String)
  | cratesCheck (name : String)
  | cargoInstall (name : String)
  | dockerPull (image : String)
  | dockerRmi (image : String)
  deriving DecidableEq, Repr

/-- State of Python's global `random` module: the seed last installed by
`random.seed`, and how many values have been drawn since. -/
structure RState where
  seed : ℕ
  idx : ℕ
  deriving DecidableEq, Repr

/-- Deterministic model of the ambient environment: the pseudorandom
stream (a pure function of seed and draw index, valued in [0,1) like
`random.random()`), `math.sin (week / 2.0)`, and the ISO week number as a
function of the wall-clock second. -/
structure Env where
  rand : ℕ → ℕ → ℚ
  rand_nonneg : ∀ s i, 0 ≤ rand s i
  rand_lt_one : ∀ s i, rand s i < 1
  sinHalfWeek : ℕ → ℚ
  sin_abs_le : ∀ n, |sinHalfWeek n| ≤ 1
  isoWeek : ℕ → ℕ

/-- One call to `random.random()`: return the stream value at the current
position and advance the position. -/
def randStep (e : Env) (r : RState) : ℚ × RState :=
  (e.rand r.seed r.idx, RState.mk r.seed (r.idx + 1))

/-- The external collaborators:. download results and registry probe
responses for each identifier. -/
structure World where
  hfDataset : String → Bool
  hfModel : String → Bool
  npmGet : String → HttpResult
  npmPack : String → Bool
  cratesGet : String → HttpResult
  cargoInstall : String → Bool
  dockerPull : String → Bool

/-- `check_npm_package_exists`: `requests.get` on the registry URL, `True`
iff status 200; any exception is logged and yields `False`. -/
def check_npm_package_exists (w : World) (package_name : String) : Bool :=
  match w.npmGet package_name with
  | HttpResult.ok status => status == 200
  | HttpResult.exn => false

/-- `check_crates_package_exists`: same shape against crates.io. -/
def check_crates_package_exists (w : World) (package_name : String) : Bool :=
  match w.cratesGet package_name with
  | HttpResult.ok status => status == 200
  | HttpResult.exn => false

/-- `download_huggingface_dataset`: snapshot into a temp dir; result plus
the external call made. -/
def download_huggingface_dataset (w : World) (repo_id : String) : Bool × List Call :=
  (w.hfDataset repo_id, [Call.hfDataset repo_id])

/-- `download_huggingface_model`. -/
def download_huggingface_model (w : World) (repo_id : String) : Bool × List Call :=
  (w.hfModel repo_id, [Call.hfModel repo_id])

/-- `download_npm_package`: `npm pack` in a temp dir. -/
def download_npm_package (w : World) (package_name : String) : Bool × List Call :=
  (w.npmPack package_name, [Call.npmPack package_name])

/-- `download_crates_package`: `cargo install --root tempdir`. -/
def download_crates_package (w : World) (package_name : String) : Bool × List Call :=
  (w.cargoInstall package_name, [Call.cargoInstall package_name])

/-- `download_docker_image`: `docker pull`, then on success `docker rmi`
(whose failure is only a warning; the function still returns `True`). -/
def download_docker_image (w : World) (image_name : String) : Bool × List Call :=
  if w.dockerPull image_name then
    (true, [Call.dockerPull image_name, Call.dockerRmi image_name])
  else
    (false, [Call.dockerPull image_name])

/-- The regex
`https://github.com/([^/]+)/([^/]+)/pkgs/KIND/([^/]+)` applied with
`re.match` (anchored at the start only): the literal prefix, a nonempty
run of non-slash characters (owner), a slash, a nonempty run (repo), the
literal `/pkgs/KIND/`, and a nonempty run (package name); anything after
the third group is ignored.  Since `[^/]+` can never cross a slash, greedy
matching needs no backtracking and each group is the maximal slash-free
run. -/
def parsePkgsUrl (kind : String) (url : String) : Option (String × String × String) :=
  let ps := "https://github.com/".toList
  let cs := url.toList
  if cs.take ps.length = ps then
    let r0 := cs.drop ps.length
    let owner := r0.takeWhile (fun c => c ≠ '/')
    let r1 := r0.dropWhile (fun c => c ≠ '/')
    if owner = [] then none else
      match r1 with
      | '/' :: r2 =>
        let repo := r2.takeWhile (fun c => c ≠ '/')
        let r3 := r2.dropWhile (fun c => c ≠ '/')
        if repo = [] then none else
          let mid := ("/pkgs/" ++ kind ++ "/").toList
          if r3.take mid.length = mid then
            let r4 := r3.drop mid.length
            let nm := r4.takeWhile (fun c => c ≠ '/')
            if nm = [] then none
            else some (String.mk owner, String.mk repo, String.mk nm)
          else none
      | _ => none
  else none

/-- `download_github_npm_package`: parse the pkgs URL; on failure log and
return `False` with no external call; otherwise `npm pack @owner/pkg`. -/
def download_github_npm_package (w : World) (pkg_url : String) : Bool × List Call :=
  match parsePkgsUrl "npm" pkg_url with
  | none => (false, [])
  | some (owner, _repo, pkg) =>
      (w.npmPack ("@" ++ owner ++ "/" ++ pkg), [Call.npmPack ("@" ++ owner ++ "/" ++ pkg)])

/-- `download_github_container_image`: parse the pkgs URL; on failure
return `False` with no external call; otherwise pull
`ghcr.io/owner/name:latest`. -/
def download_github_container_image (w : World) (pkg_url : String) : Bool × List Call :=
  match parsePkgsUrl "container" pkg_url with
  | none => (false, [])
  | some (owner, _repo, nm) =>
      download_docker_image w ("ghcr.io/" ++ owner ++ "/" ++ nm ++ ":latest")

/-- Python's builtin `min` on two numbers: the first argument when the
two are equal. -/
def pymin (a b : ℚ) : ℚ := if a ≤ b then a else b

/-- Python's builtin `max` on two numbers: the first argument when the
two are equal. -/
def pymax (a b : ℚ) : ℚ := if b ≤ a then a else b

/-- `week_probability_adjustment`: `1 + 0.15 * sin (week / 2)`, plus a
jitter `random.uniform (-0.05) 0.07` drawn right after
`random.seed (week_num ^ 0xA0A7)`, clamped to [0.7, 1.35].  Returns the
multiplier together with the `random` module state it leaves behind. -/
def week_probability_adjustment (e : Env) (week_num : ℕ) (_r : RState) : ℚ × RState :=
  let base : ℚ := 1 + 15/100 * e.sinHalfWeek week_num
  let r1 : RState := RState.mk (Nat.xor week_num 0xA0A7) 0
  let d := randStep e r1
  let jitter : ℚ := (-5/100) + (7/100 - (-5/100)) * d.1
  let adj := base + jitter
  (pymax (7/10) (pymin (135/100) adj), d.2)

/-- Task 1: unconditionally download the HuggingFace dataset
(`a0a7/Gregg-1916`); no probability draw is made. -/
def task1 (_e : Env) (w : World) (_m : ℚ) (r : RState) :
    (String × Outcome) × List Call × RState :=
  let s := download_huggingface_dataset w "a0a7/Gregg-1916"
  (("HuggingFace dataset a0a7/Gregg-1916", Outcome.ofBool s.1), s.2, r)

/-- Task 2: with probability 0.30 (times the weekly multiplier) download
the HuggingFace model, else record "skipped". -/
def task2 (e : Env) (w : World) (m : ℚ) (r : RState) :
    (String × Outcome) × List Call × RState :=
  let d := randStep e r
  if d.1 < 30/100 * m then
    let s := download_huggingface_model w "a0a7/gregg-recognition"
    (("HuggingFace model a0a7/gregg-recognition", Outcome.ofBool s.1), s.2, d.2)
  else
    (("HuggingFace model a0a7/gregg-recognition", Outcome.skipped), [], d.2)

/-- Task 3: with probability 0.85 (adjusted), check whether the npm
package `fastgeotoolkit` exists; download it if so, otherwise download
`heatmap-parse` with no further check. -/
def task3 (e : Env) (w : World) (m : ℚ) (r : RState) :
    (String × Outcome) × List Call × RState :=
  let d := randStep e r
  if d.1 < 85/100 * m then
    if check_npm_package_exists w "fastgeotoolkit" then
      let s := download_npm_package w "fastgeotoolkit"
      (("npm package fastgeotoolkit", Outcome.ofBool s.1), Call.npmCheck "fastgeotoolkit" :: s.2, d.2)
    else
      let s := download_npm_package w "heatmap-parse"
      (("npm package heatmap-parse", Outcome.ofBool s.1), Call.npmCheck "fastgeotoolkit" :: s.2, d.2)
  else
    (("npm package", Outcome.skipped), [], d.2)

/-- Task 4: with probability 0.95 (adjusted), the same primary/fallback
pattern against crates.io. -/
def task4 (e : Env) (w : World) (m : ℚ) (r : RState) :
    (String × Outcome) × List Call × RState :=
  let d := randStep e r
  if d.1 < 95/100 * m then
    if check_crates_package_exists w "fastgeotoolkit" then
      let s := download_crates_package w "fastgeotoolkit"
      (("crates package fastgeotoolkit", Outcome.ofBool s.1), Call.cratesCheck "fastgeotoolkit" :: s.2, d.2)
    else
      let s := download_crates_package w "heatmap-parse"
      (("crates package heatmap-parse", Outcome.ofBool s.1), Call.cratesCheck "fastgeotoolkit" :: s.2, d.2)
  else
    (("crates package", Outcome.skipped), [], d.2)

/-- Task 5: with probability 0.40 (adjusted) pull the Docker image. -/
def task5 (e : Env) (w : World) (m : ℚ) (r : RState) :
    (String × Outcome) × List Call × RState :=
  let d := randStep e r
  if d.1 < 40/100 * m then
    let s := download_docker_image w "a0a7/publicbroadcastarr"
    (("Docker image a0a7/publicbroadcastarr", Outcome.ofBool s.1), s.2, d.2)
  else
    (("Docker image a0a7/publicbroadcastarr", Outcome.skipped), [], d.2)

/-- Extra task (cutoff-gated): probability 0.80, GitHub npm
fastgeotoolkit. -/
def extra1 (e : Env) (w : World) (m : ℚ) (r : RState) :
    (String × Outcome) × List Call × RState :=
  let d := randStep e r
  if d.1 < 80/100 * m then
    let s := download_github_npm_package w "https://github.com/a0a7/fastgeotoolkit/pkgs/npm/fastgeotoolkit"
    (("GitHub npm package @a0a7/fastgeotoolkit", Outcome.ofBool s.1), s.2, d.2)
  else
    (("GitHub npm package @a0a7/fastgeotoolkit", Outcome.skipped), [], d.2)

/-- Extra task (cutoff-gated): probability 0.70, GitHub container
publicbroadcastarr. -/
def extra2 (e : Env) (w : World) (m : ℚ) (r : RState) :
    (String × Outcome) × List Call × RState :=
  let d := randStep e r
  if d.1 < 70/100 * m then
    let s := download_github_container_image w "https://github.com/a0a7/publicbroadcastarr/pkgs/container/publicbroadcastarr"
    (("GitHub container image ghcr.io/a0a7/publicbroadcastarr", Outcome.ofBool s.1), s.2, d.2)
  else
    (("GitHub container image ghcr.io/a0a7/publicbroadcastarr", Outcome.skipped), [], d.2)

/-- Extra task (cutoff-gated): probability 0.20, GitHub npm
heatmap-parse. -/
def extra3 (e : Env) (w : World) (m : ℚ) (r : RState) :
    (String × Outcome) × List Call × RState :=
  let d := randStep e r
  if d.1 < 20/100 * m then
    let s := download_github_npm_package w "https://github.com/a0a7/heatmap-parse/pkgs/npm/heatmap-parse"
    (("GitHub npm package @a0a7/heatmap-parse", Outcome.ofBool s.1), s.2, d.2)
  else
    (("GitHub npm package @a0a7/heatmap-parse", Outcome.skipped), [], d.2)

/-- Extra task (cutoff-gated): probability 0.30, GitHub container
svtplayarr. -/
def extra4 (e : Env) (w : World) (m : ℚ) (r : RState) :
    (String × Outcome) × List Call × RState :=
  let d := randStep e r
  if d.1 < 30/100 * m then
    let s := download_github_container_image w "https://github.com/a0a7/svtplayarr/pkgs/container/svtplayarr"
    (("GitHub container image ghcr.io/a0a7/svtplayarr", Outcome.ofBool s.1), s.2, d.2)
  else
    (("GitHub container image ghcr.io/a0a7/svtplayarr", Outcome.skipped), [], d.2)

/-- The fixed cutoff instant (Unix seconds of November 5, 2025). -/
def cutoff_ts : ℕ := 1762339200

/-- `main`: compute the weekly multiplier from the ISO week number, reseed
the stream with the minute bucket `ts / 60`, evaluate the five base tasks
in order, then (only when `ts` is at or before the cutoff) the four
GitHub-hosted extra tasks.  Returns the `results` list and the trace of
external fetch calls. -/
def main (e : Env) (w : World) (ts : ℕ) : List (String × Outcome) × List Call :=
  let m := (week_probability_adjustment e (e.isoWeek ts) (RState.mk 0 0)).1
  let r0 : RState := RState.mk (ts / 60) 0
  let t1 := task1 e w m r0
  let t2 := task2 e w m t1.2.2
  let t3 := task3 e w m t2.2.2
  let t4 := task4 e w m t3.2.2
  let t5 := task5 e w m t4.2.2
  if ts ≤ cutoff_ts then
    let x1 := extra1 e w m t5.2.2
    let x2 := extra2 e w m x1.2.2
    let x3 := extra3 e w m x2.2.2
    let x4 := extra4 e w m x3.2.2
    ([t1.1, t2.1, t3.1, t4.1, t5.1, x1.1, x2.1, x3.1, x4.1],
     t1.2.1 ++ t2.2.1 ++ t3.2.1 ++ t4.2.1 ++ t5.2.1 ++ x1.2.1 ++ x2.2.1 ++ x3.2.1 ++ x4.2.1)
  else
    ([t1.1, t2.1, t3.1, t4.1, t5.1],
     t1.2.1 ++ t2.2.1 ++ t3.2.1 ++ t4.2.1 ++ t5.2.1)

/-- The triggered/skipped decision sequence of a run. -/
def decisions (e : Env) (w : World) (ts : ℕ) : List Decision :=
  (main e w ts).1.map (fun p => decisionOf p.2)

/-- One trigger decision of the closed-form model: compare the stream
value at a given index against `p` times the weekly multiplier. -/
def decideTrig (e : Env) (seed i : ℕ) (p : ℚ) (week : ℕ) : Decision :=
  if e.rand seed i < p * (week_probability_adjustment e week (RState.mk 0 0)).1
  then Decision.triggered else Decision.skipped

/-- Closed form of the decision sequence: a pure function of the seed
bucket, the ISO week number, and whether the run is inside the cutoff
window.  The `World` does not appear. -/
def decisionsModel (e : Env) (seed week : ℕ) (inWin : Bool) : List Decision :=
  [Decision.triggered,
   decideTrig e seed 0 (30/100) week,
   decideTrig e seed 1 (85/100) week,
   decideTrig e seed 2 (95/100) week,
   decideTrig e seed 3 (40/100) week] ++
  (if inWin then
    [decideTrig e seed 4 (80/100) week,
     decideTrig e seed 5 (70/100) week,
     decideTrig e seed 6 (20/100) week,
     decideTrig e seed 7 (30/100) week]
   else [])

/-- Process-level state relevant to the npm download helpers: the current
working directory (`os.getcwd` / `os.chdir`). -/
structure Proc where
  cwd : String
  deriving DecidableEq, Repr

/-- `download_npm_package`, tracked at the working-directory level.
The body records `original_cwd`, enters the temp dir, runs
`subprocess.run ["npm", "pack", ...]` (which exits with a code, raises
`TimeoutExpired`, or raises otherwise), then the `finally` block restores
`original_cwd` on every path; an escaping exception is caught by the outer
`except`, which returns `False`. -/
def download_npm_package_proc (res : SubprocResult) (temp_dir : String) (p : Proc) :
    Bool × Proc :=
  let original_cwd := p.cwd
  let p1 : Proc := Proc.mk temp_dir
  let step : Option Bool × Proc :=
    match res with
    | SubprocResult.exit code => (some (decide (code = 0)), p1)
    | SubprocResult.timeout => (none, p1)
    | SubprocResult.exn => (none, p1)
  let p2 : Proc := Proc.mk original_cwd
  match step.1 with
  | some b => (b, p2)
  | none => (false, p2)

/-- `download_github_npm_package`, tracked at the working-directory level.
Same `chdir`/`try`/`finally` shape; `npmrc_ok = false` stands for an
exception raised before `subprocess.run` (e.g. while writing `.npmrc`),
which also flows through the `finally` restore into the outer `except`. -/
def download_github_npm_package_proc (res : SubprocResult) (npmrc_ok : Bool)
    (temp_dir : String) (p : Proc) : Bool × Proc :=
  let original_cwd := p.cwd
  let p1 : Proc := Proc.mk temp_dir
  let step : Option Bool × Proc :=
    if npmrc_ok then
      match res with
      | SubprocResult.exit code => (some (decide (code = 0)), p1)
      | SubprocResult.timeout => (none, p1)
      | SubprocResult.exn => (none, p1)
    else (none, p1)
  let p2 : Proc := Proc.mk original_cwd
  match step.1 with
  | some b => (b, p2)
  | none => (false, p2)

/-- The four fixed task names of the cutoff-gated GitHub group, in task
order. -/
def ghNames : List String :=
  ["GitHub npm package @a0a7/fastgeotoolkit",
   "GitHub container image ghcr.io/a0a7/publicbroadcastarr",
   "GitHub npm package @a0a7/heatmap-parse",
   "GitHub container image ghcr.io/a0a7/svtplayarr"]

/-- One probability-gated task draws exactly one sample (the stream
position advances by one), triggers with at least one external call when
the draw is below `p` times the multiplier, and otherwise records
"skipped" with no external call. -/
def oneDrawCompare
    (tk : Env → World → ℚ → RState → (String × Outcome) × List Call × RState)
    (p : ℚ) (e : Env) (w : World) (m : ℚ) (r : RState) : Prop :=
  (tk e w m r).2.2 = RState.mk r.seed (r.idx + 1) ∧
  (e.rand r.seed r.idx < p * m →
    decisionOf (tk e w m r).1.2 = Decision.triggered ∧ (tk e w m r).2.1 ≠ []) ∧
  (¬ e.rand r.seed r.idx < p * m →
    (tk e w m r).1.2 = Outcome.skipped ∧ (tk e w m r).2.1 = [])

/-- A simple deterministic environment: every draw is 1/2, the sine term
is 0, the ISO week is the wall-clock second divided by a week of
seconds (which is constant on every 60-second bucket). -/
def constEnv : Env :=
  ⟨fun _ _ => 1/2, fun _ _ => by norm_num, fun _ _ => by norm_num,
   fun _ => 0, fun _ => by norm_num, fun t => t / 604800⟩

/-- Environment in which every draw is 1/2 and the sine term is -1/15,
making the weekly multiplier exactly 1. -/
def envHalf : Env :=
  ⟨fun _ _ => 1/2, fun _ _ => by norm_num, fun _ _ => by norm_num,
   fun _ => -(1/15), fun _ => by rw [abs_of_nonpos] <;> norm_num,
   fun t => t / 604800⟩

/-- Environment in which every draw is 19/20 and the sine term is -1,
making the weekly multiplier 0.914, strictly below 19/20. -/
def envHigh : Env :=
  ⟨fun _ _ => 19/20, fun _ _ => by norm_num, fun _ _ => by norm_num,
   fun _ => -1, fun _ => by rw [abs_of_nonpos] <;> norm_num,
   fun t => t / 604800⟩

/-- A world where every probe succeeds with status 200 and every download
succeeds. -/
def trivWorld : World :=
  ⟨fun _ => true, fun _ => true, fun _ => HttpResult.ok 200, fun _ => true,
   fun _ => HttpResult.ok 200, fun _ => true, fun _ => true⟩

/-- A world where both existence probes raise, npm downloads succeed and
cargo installs fail. -/
def exnWorld : World :=
  ⟨fun _ => true, fun _ => true, fun _ => HttpResult.exn, fun _ => true,
   fun _ => HttpResult.exn, fun _ => false, fun _ => true⟩

end DownloadScript

namespace DownloadScript

theorem pymin_eq_min (a b : ℚ) : pymin a b = min a b := by
  rw [pymin, min_def]

theorem pymax_eq_max (a b : ℚ) : pymax a b = max a b := by
  rw [pymax, max_def]
  rcases lt_trichotomy a b with h | h | h
  · rw [if_neg (not_le.mpr h), if_pos h.le]
  · subst h; simp
  · rw [if_pos h.le, if_neg (not_le.mpr h)]

theorem decisionOf_ofBool (b : Bool) : decisionOf (Outcome.ofBool b) = Decision.triggered := by
  cases b <;> rfl

theorem state_task1 (e : Env) (w : World) (m : ℚ) (r : RState) :
    (task1 e w m r).2.2 = r := rfl

theorem state_task2 (e : Env) (w : World) (m : ℚ) (r : RState) :
    (task2 e w m r).2.2 = RState.mk r.seed (r.idx + 1) := by
  simp only [task2, randStep]
  split <;> rfl

theorem state_task3 (e : Env) (w : World) (m : ℚ) (r : RState) :
    (task3 e w m r).2.2 = RState.mk r.seed (r.idx + 1) := by
  simp only [task3, randStep]
  split
  · split <;> rfl
  · rfl

theorem state_task4 (e : Env) (w : World) (m : ℚ) (r : RState) :
    (task4 e w m r).2.2 = RState.mk r.seed (r.idx + 1) := by
  simp only [task4, randStep]
  split
  · split <;> rfl
  · rfl

theorem state_task5 (e : Env) (w : World) (m : ℚ) (r : RState) :
    (task5 e w m r).2.2 = RState.mk r.seed (r.idx + 1) := by
  simp only [task5, randStep]
  split <;> rfl

theorem state_extra1 (e : Env) (w : World) (m : ℚ) (r : RState) :
    (extra1 e w m r).2.2 = RState.mk r.seed (r.idx + 1) := by
  simp only [extra1, randStep]
  split <;> rfl

theorem state_extra2 (e : Env) (w : World) (m : ℚ) (r : RState) :
    (extra2 e w m r).2.2 = RState.mk r.seed (r.idx + 1) := by
  simp only [extra2, randStep]
  split <;> rfl

theorem state_extra3 (e : Env) (w : World) (m : ℚ) (r : RState) :
    (extra3 e w m r).2.2 = RState.mk r.seed (r.idx + 1) := by
  simp only [extra3, randStep]
  split <;> rfl

theorem state_extra4 (e : Env) (w : World) (m : ℚ) (r : RState) :
    (extra4 e w m r).2.2 = RState.mk r.seed (r.idx + 1) := by
  simp only [extra4, randStep]
  split <;> rfl

theorem dec_task1 (e : Env) (w : World) (m : ℚ) (r : RState) :
    decisionOf (task1 e w m r).1.2 = Decision.triggered := by
  simp only [task1, download_huggingface_dataset]
  exact decisionOf_ofBool _

theorem dec_task2 (e : Env) (w : World) (m : ℚ) (r : RState) :
    decisionOf (task2 e w m r).1.2
      = (if e.rand r.seed r.idx < 30/100 * m then Decision.triggered else Decision.skipped) := by
  simp only [task2, randStep]
  split
  · exact decisionOf_ofBool _
  · rfl

theorem dec_task3 (e : Env) (w : World) (m : ℚ) (r : RState) :
    decisionOf (task3 e w m r).1.2
      = (if e.rand r.seed r.idx < 85/100 * m then Decision.triggered else Decision.skipped) := by
  simp only [task3, randStep]
  split
  · split
    · exact decisionOf_ofBool _
    · exact decisionOf_ofBool _
  · rfl

theorem dec_task4 (e : Env) (w : World) (m : ℚ) (r : RState) :
    decisionOf (task4 e w m r).1.2
      = (if e.rand r.seed r.idx < 95/100 * m then Decision.triggered else Decision.skipped) := by
  simp only [task4, randStep]
  split
  · split
    · exact decisionOf_ofBool _
    · exact decisionOf_ofBool _
  · rfl

theorem dec_task5 (e : Env) (w : World) (m : ℚ) (r : RState) :
    decisionOf (task5 e w m r).1.2
      = (if e.rand r.seed r.idx < 40/100 * m then Decision.triggered else Decision.skipped) := by
  simp only [task5, randStep]
  split
  · exact decisionOf_ofBool _
  · rfl

theorem dec_extra1 (e : Env) (w : World) (m : ℚ) (r : RState) :
    decisionOf (extra1 e w m r).1.2
      = (if e.rand r.seed r.idx < 80/100 * m then Decision.triggered else Decision.skipped) := by
  simp only [extra1, randStep]
  split
  · exact decisionOf_ofBool _
  · rfl

theorem dec_extra2 (e : Env) (w : World) (m : ℚ) (r : RState) :
    decisionOf (extra2 e w m r).1.2
      = (if e.rand r.seed r.idx < 70/100 * m then Decision.triggered else Decision.skipped) := by
  simp only [extra2, randStep]
  split
  · exact decisionOf_ofBool _
  · rfl

theorem dec_extra3 (e : Env) (w : World) (m : ℚ) (r : RState) :
    decisionOf (extra3 e w m r).1.2
      = (if e.rand r.seed r.idx < 20/100 * m then Decision.triggered else Decision.skipped) := by
  simp only [extra3, randStep]
  split
  · exact decisionOf_ofBool _
  · rfl

theorem dec_extra4 (e : Env) (w : World) (m : ℚ) (r : RState) :
    decisionOf (extra4 e w m r).1.2
      = (if e.rand r.seed r.idx < 30/100 * m then Decision.triggered else Decision.skipped) := by
  simp only [extra4, randStep]
  split
  · exact decisionOf_ofBool _
  · rfl

theorem decisions_eq_model (e : Env) (w : World) (ts : ℕ) :
    decisions e w ts
      = decisionsModel e (ts / 60) (e.isoWeek ts) (decide (ts ≤ cutoff_ts)) := by
  by_cases h : ts ≤ cutoff_ts <;>
    (simp only [decisions, main, decisionsModel, decideTrig, h, decide_True, decide_False,
      if_true, if_false, List.map_cons, List.map_nil, state_task1, state_task2, state_task3,
      state_task4, state_task5, state_extra1, state_extra2, state_extra3, state_extra4,
      dec_task1, dec_task2, dec_task3, dec_task4, dec_task5,
      dec_extra1, dec_extra2, dec_extra3, dec_extra4, List.cons_append, List.nil_append,
      List.append_nil, Nat.zero_add, Nat.reduceAdd]
     try rfl)

end DownloadScript

namespace DownloadScript

theorem rand_constEnv (s i : ℕ) : constEnv.rand s i = 1/2 := rfl

theorem rand_envHalf (s i : ℕ) : envHalf.rand s i = 1/2 := rfl

theorem rand_envHigh (s i : ℕ) : envHigh.rand s i = 19/20 := rfl

theorem mult_constEnv (wk : ℕ) :
    (week_probability_adjustment constEnv wk (RState.mk 0 0)).1 = 101/100 := by
  simp only [week_probability_adjustment, randStep, constEnv, pymax, pymin]
  norm_num

theorem mult_envHalf (wk : ℕ) :
    (week_probability_adjustment envHalf wk (RState.mk 0 0)).1 = 1 := by
  simp only [week_probability_adjustment, randStep, envHalf, pymax, pymin]
  norm_num

theorem mult_envHigh (wk : ℕ) :
    (week_probability_adjustment envHigh wk (RState.mk 0 0)).1 = 457/500 := by
  simp only [week_probability_adjustment, randStep, envHigh, pymax, pymin]
  norm_num

theorem name_task1 (e : Env) (w : World) (m : ℚ) (r : RState) :
    (task1 e w m r).1.1 = "HuggingFace dataset a0a7/Gregg-1916" := rfl

theorem name_task2 (e : Env) (w : World) (m : ℚ) (r : RState) :
    (task2 e w m r).1.1 = "HuggingFace model a0a7/gregg-recognition" := by
  simp only [task2, randStep]
  split <;> rfl

theorem name_task5 (e : Env) (w : World) (m : ℚ) (r : RState) :
    (task5 e w m r).1.1 = "Docker image a0a7/publicbroadcastarr" := by
  simp only [task5, randStep]
  split <;> rfl

theorem ghc_task3 (e : Env) (w : World) (m : ℚ) (r : RState) :
    ghNames.contains (task3 e w m r).1.1 = false := by
  simp only [task3, randStep]
  split
  · split <;> rfl
  · rfl

theorem ghc_task4 (e : Env) (w : World) (m : ℚ) (r : RState) :
    ghNames.contains (task4 e w m r).1.1 = false := by
  simp only [task4, randStep]
  split
  · split <;> rfl
  · rfl

theorem name_extra1 (e : Env) (w : World) (m : ℚ) (r : RState) :
    (extra1 e w m r).1.1 = "GitHub npm package @a0a7/fastgeotoolkit" := by
  simp only [extra1, randStep]
  split <;> rfl

theorem name_extra2 (e : Env) (w : World) (m : ℚ) (r : RState) :
    (extra2 e w m r).1.1 = "GitHub container image ghcr.io/a0a7/publicbroadcastarr" := by
  simp only [extra2, randStep]
  split <;> rfl

theorem name_extra3 (e : Env) (w : World) (m : ℚ) (r : RState) :
    (extra3 e w m r).1.1 = "GitHub npm package @a0a7/heatmap-parse" := by
  simp only [extra3, randStep]
  split <;> rfl

theorem name_extra4 (e : Env) (w : World) (m : ℚ) (r : RState) :
    (extra4 e w m r).1.1 = "GitHub container image ghcr.io/a0a7/svtplayarr" := by
  simp only [extra4, randStep]
  split <;> rfl

theorem main_length (e : Env) (w : World) (ts : ℕ) :
    (main e w ts).1.length = if ts ≤ cutoff_ts then 9 else 5 := by
  by_cases h : ts ≤ cutoff_ts <;> simp [main, h]

theorem decisions_at_cutoff :
    decisions constEnv trivWorld 1762339200
      = [Decision.triggered, Decision.skipped, Decision.triggered, Decision.triggered,
         Decision.skipped, Decision.triggered, Decision.triggered, Decision.skipped,
         Decision.skipped] := by
  rw [decisions_eq_model]
  norm_num [decisionsModel, decideTrig, mult_constEnv, rand_constEnv, cutoff_ts]

theorem decisions_after_cutoff :
    decisions constEnv trivWorld 1762339230
      = [Decision.triggered, Decision.skipped, Decision.triggered, Decision.triggered,
         Decision.skipped] := by
  rw [decisions_eq_model]
  norm_num [decisionsModel, decideTrig, mult_constEnv, rand_constEnv, cutoff_ts]


theorem parse_url_extra1 :
    parsePkgsUrl "npm" "https://github.com/a0a7/fastgeotoolkit/pkgs/npm/fastgeotoolkit"
      = some ("a0a7", "fastgeotoolkit", "fastgeotoolkit") := by decide

theorem parse_url_extra2 :
    parsePkgsUrl "container"
        "https://github.com/a0a7/publicbroadcastarr/pkgs/container/publicbroadcastarr"
      = some ("a0a7", "publicbroadcastarr", "publicbroadcastarr") := by decide

theorem parse_url_extra3 :
    parsePkgsUrl "npm" "https://github.com/a0a7/heatmap-parse/pkgs/npm/heatmap-parse"
      = some ("a0a7", "heatmap-parse", "heatmap-parse") := by decide

theorem parse_url_extra4 :
    parsePkgsUrl "container" "https://github.com/a0a7/svtplayarr/pkgs/container/svtplayarr"
      = some ("a0a7", "svtplayarr", "svtplayarr") := by decide

/-- Claim C1 (amended): two invocations whose wall-clock times fall in the
same 60-second bucket, share an ISO week assignment that is constant on
buckets (as the real calendar is), and lie on the same side of the fixed
cutoff instant, produce identical triggered/skipped decision sequences,
whatever the external world does in either run. -/
theorem bucket_determinism_amended (e : Env) (w w' : World) (ts1 ts2 : ℕ)
    (hweek : ∀ t1 t2 : ℕ, t1 / 60 = t2 / 60 → e.isoWeek t1 = e.isoWeek t2)
    (hb : ts1 / 60 = ts2 / 60)
    (hc : ts1 ≤ cutoff_ts ↔ ts2 ≤ cutoff_ts) :
    decisions e w ts1 = decisions e w' ts2 := by
  have hw : e.isoWeek ts1 = e.isoWeek ts2 := hweek ts1 ts2 hb
  have hcc : decide (ts1 ≤ cutoff_ts) = decide (ts2 ≤ cutoff_ts) := by
    rcases hc with ⟨h1, h2⟩
    by_cases h : ts1 ≤ cutoff_ts
    · simp [h, h1 h]
    · have h' : ¬ ts2 ≤ cutoff_ts := fun hh => h (h2 hh)
      simp [h, h']
  rw [decisions_eq_model, decisions_eq_model, hb, hw, hcc]

/-- Witness for claim C1 (amended), at the concrete bucket of minute 1:
seconds 60 and 119 give the same decisions even against different
worlds. -/
theorem bucket_determinism_amended_witness :
    decisions constEnv trivWorld 60 = decisions constEnv exnWorld 119 := by
  refine bucket_determinism_amended constEnv trivWorld exnWorld 60 119 ?_ (by norm_num) ?_
  · intro t1 t2 h
    show t1 / (60 * 10080) = t2 / (60 * 10080)
    rw [← Nat.div_div_eq_div_mul, ← Nat.div_div_eq_div_mul, h]
  · constructor <;> intro _ <;> norm_num [cutoff_ts]

/-- Counterexample to claim C1 as stated: the timestamps 1762339200 (the
cutoff itself) and 1762339230 lie in the same 60-second bucket, yet the
first run makes nine triggered/skipped decisions and the second only
five, because the cutoff instant lies strictly inside that bucket. -/
theorem bucket_determinism_counterexample :
    (1762339200 : ℕ) / 60 = 1762339230 / 60 ∧
    decisions constEnv trivWorld 1762339200 ≠ decisions constEnv trivWorld 1762339230 := by
  refine ⟨by norm_num, ?_⟩
  rw [decisions_at_cutoff, decisions_after_cutoff]
  decide

/-- Claim C2: every run appends exactly one outcome per eligible task
(nine results at or before the cutoff, five after), and each of the four
GitHub-hosted task names appears exactly once among the results when the
current time is at or before the cutoff and not at all (not even as
skipped) after it. -/
theorem outcome_per_eligible_task (e : Env) (w : World) (ts : ℕ) :
    (main e w ts).1.length = (if ts ≤ cutoff_ts then 9 else 5) ∧
    ((main e w ts).1.map Prod.fst).filter ghNames.contains
      = (if ts ≤ cutoff_ts then ghNames else []) := by
  refine ⟨main_length e w ts, ?_⟩
  have g1 : ghNames.contains "HuggingFace dataset a0a7/Gregg-1916" = false := rfl
  have g2 : ghNames.contains "HuggingFace model a0a7/gregg-recognition" = false := rfl
  have g5 : ghNames.contains "Docker image a0a7/publicbroadcastarr" = false := rfl
  have x1 : ghNames.contains "GitHub npm package @a0a7/fastgeotoolkit" = true := rfl
  have x2 : ghNames.contains "GitHub container image ghcr.io/a0a7/publicbroadcastarr" = true := rfl
  have x3 : ghNames.contains "GitHub npm package @a0a7/heatmap-parse" = true := rfl
  have x4 : ghNames.contains "GitHub container image ghcr.io/a0a7/svtplayarr" = true := rfl
  by_cases h : ts ≤ cutoff_ts
  case pos =>
    simp only [main, if_pos h, List.map_cons, List.map_nil,
      name_task1, name_task2, name_task5,
      name_extra1, name_extra2, name_extra3, name_extra4,
      List.filter_cons, List.filter_nil, ghc_task3, ghc_task4, g1, g2, g5, x1, x2, x3, x4]
    simp [ghNames]
  case neg =>
    simp only [main, if_neg h, List.map_cons, List.map_nil,
      name_task1, name_task2, name_task5,
      List.filter_cons, List.filter_nil, ghc_task3, ghc_task4, g1, g2, g5]
    simp

/-- Claim C6: the weekly multiplier equals
clamp(1 + 0.15*sin(week/2) + jitter, 0.7, 1.35), where the jitter is the
uniform(-0.05, 0.07) draw taken right after seeding with the week number
xor 0xA0A7 (so it depends on the week number alone); the multiplier always
lies in [0.7, 1.35] and does not depend on the incoming stream state. -/
theorem weekly_multiplier_formula (e : Env) (week_num : ℕ) (r r' : RState) :
    (week_probability_adjustment e week_num r).1
      = max (7/10) (min (135/100)
          (1 + 15/100 * e.sinHalfWeek week_num
            + ((-5/100) + (7/100 - (-5/100)) * e.rand (Nat.xor week_num 0xA0A7) 0)))
    ∧ 7/10 ≤ (week_probability_adjustment e week_num r).1
    ∧ (week_probability_adjustment e week_num r).1 ≤ 135/100
    ∧ (week_probability_adjustment e week_num r).1
        = (week_probability_adjustment e week_num r').1 := by
  refine ⟨?_, ?_, ?_, rfl⟩
  · simp only [week_probability_adjustment, randStep, pymax_eq_max, pymin_eq_min]
  · simp only [week_probability_adjustment, randStep, pymax_eq_max]
    exact le_max_left _ _
  · simp only [week_probability_adjustment, randStep, pymax_eq_max, pymin_eq_min]
    exact max_le (by norm_num) (min_le_left _ _)

/-- Claim C7: no adapter error is fatal.  The npm download helpers return
`False` (never raise) on non-zero exit, timeout, tool exception, or a
failure before the tool even runs; the triggered/skipped decision sequence
of a run does not depend on the external world at all (so task N+1 runs
whatever happened to task N); and the full results list is always produced
for the summary, whatever the world does. -/
theorem errors_not_fatal (e : Env) (w w' : World) (ts : ℕ) (res : SubprocResult)
    (npmrc_ok : Bool) (temp_dir : String) (p : Proc) :
    ((download_npm_package_proc res temp_dir p).1 = true ↔ res = SubprocResult.exit 0) ∧
    ((download_github_npm_package_proc res npmrc_ok temp_dir p).1 = true ↔
      (npmrc_ok = true ∧ res = SubprocResult.exit 0)) ∧
    decisions e w ts = decisions e w' ts ∧
    (main e w ts).1.length = (if ts ≤ cutoff_ts then 9 else 5) := by
  refine ⟨?_, ?_, ?_, main_length e w ts⟩
  · cases res <;> simp [download_npm_package_proc]
  · cases npmrc_ok <;> cases res <;> simp [download_github_npm_package_proc]
  · rw [decisions_eq_model, decisions_eq_model]

/-- Claim C9: a URL that does not match
https://github.com/OWNER/REPO/pkgs/KIND/NAME makes the GitHub npm and
GitHub container download helpers return `False` with no external call
(the enclosing task then records a failure); nothing is raised and the
run continues. -/
theorem malformed_url_failure (w : World) (url : String) :
    (parsePkgsUrl "npm" url = none →
      download_github_npm_package w url = (false, [])) ∧
    (parsePkgsUrl "container" url = none →
      download_github_container_image w url = (false, [])) := by
  constructor <;> intro h <;>
    simp [download_github_npm_package, download_github_container_image, h]

/-- Witness for claim C9 at the concrete malformed URL "notaurl". -/
theorem malformed_url_failure_witness :
    download_github_npm_package trivWorld "notaurl" = (false, []) ∧
    download_github_container_image trivWorld "notaurl" = (false, []) :=
  ⟨(malformed_url_failure trivWorld "notaurl").1 (by decide),
   (malformed_url_failure trivWorld "notaurl").2 (by decide)⟩

/-- Claim C10: both npm download helpers restore the working directory
they started in, on every exit path of the packing subprocess (clean exit
with any code, timeout, raised exception, or a failure before the tool
runs). -/
theorem cwd_restored (res : SubprocResult) (npmrc_ok : Bool) (temp_dir : String) (p : Proc) :
    (download_npm_package_proc res temp_dir p).2 = p ∧
    (download_github_npm_package_proc res npmrc_ok temp_dir p).2 = p := by
  constructor
  · cases res <;> rfl
  · cases npmrc_ok <;> cases res <;> rfl


/-- Claim C3 (amended): every probability-gated task (tasks 2-5 and the
four cutoff-gated extra tasks) draws exactly one uniform sample from the
run stream and compares it against its base probability times the
multiplier, triggering its fetch adapter when the draw is below the
threshold and recording "skipped" with no external call otherwise; task 1
is the exception: it draws no sample and invokes its adapter
unconditionally. -/
theorem one_draw_per_task_amended (e : Env) (w : World) (m : ℚ) (r : RState) :
    ((task1 e w m r).2.2 = r
      ∧ (task1 e w m r).2.1 = [Call.hfDataset "a0a7/Gregg-1916"]
      ∧ decisionOf (task1 e w m r).1.2 = Decision.triggered) ∧
    oneDrawCompare task2 (30/100) e w m r ∧
    oneDrawCompare task3 (85/100) e w m r ∧
    oneDrawCompare task4 (95/100) e w m r ∧
    oneDrawCompare task5 (40/100) e w m r ∧
    oneDrawCompare extra1 (80/100) e w m r ∧
    oneDrawCompare extra2 (70/100) e w m r ∧
    oneDrawCompare extra3 (20/100) e w m r ∧
    oneDrawCompare extra4 (30/100) e w m r := by
  refine ⟨⟨rfl, rfl, dec_task1 e w m r⟩, ?_, ?_, ?_, ?_, ?_, ?_, ?_, ?_⟩
  · refine ⟨state_task2 e w m r, fun h => ⟨?_, ?_⟩, fun h => ⟨?_, ?_⟩⟩
    · rw [dec_task2]; exact if_pos h
    · simp [task2, randStep, if_pos h, download_huggingface_model]
    · simp [task2, randStep, if_neg h]
    · simp [task2, randStep, if_neg h]
  · refine ⟨state_task3 e w m r, fun h => ⟨?_, ?_⟩, fun h => ⟨?_, ?_⟩⟩
    · rw [dec_task3]; exact if_pos h
    · simp only [task3, randStep, if_pos h]
      split <;> simp
    · simp [task3, randStep, if_neg h]
    · simp [task3, randStep, if_neg h]
  · refine ⟨state_task4 e w m r, fun h => ⟨?_, ?_⟩, fun h => ⟨?_, ?_⟩⟩
    · rw [dec_task4]; exact if_pos h
    · simp only [task4, randStep, if_pos h]
      split <;> simp
    · simp [task4, randStep, if_neg h]
    · simp [task4, randStep, if_neg h]
  · refine ⟨state_task5 e w m r, fun h => ⟨?_, ?_⟩, fun h => ⟨?_, ?_⟩⟩
    · rw [dec_task5]; exact if_pos h
    · simp only [task5, randStep, if_pos h, download_docker_image]
      split <;> simp
    · simp [task5, randStep, if_neg h]
    · simp [task5, randStep, if_neg h]
  · refine ⟨state_extra1 e w m r, fun h => ⟨?_, ?_⟩, fun h => ⟨?_, ?_⟩⟩
    · rw [dec_extra1]; exact if_pos h
    · simp [extra1, randStep, if_pos h, download_github_npm_package, parse_url_extra1]
    · simp [extra1, randStep, if_neg h]
    · simp [extra1, randStep, if_neg h]
  · refine ⟨state_extra2 e w m r, fun h => ⟨?_, ?_⟩, fun h => ⟨?_, ?_⟩⟩
    · rw [dec_extra2]; exact if_pos h
    · simp only [extra2, randStep, if_pos h, download_github_container_image, parse_url_extra2,
        download_docker_image]
      split <;> simp
    · simp [extra2, randStep, if_neg h]
    · simp [extra2, randStep, if_neg h]
  · refine ⟨state_extra3 e w m r, fun h => ⟨?_, ?_⟩, fun h => ⟨?_, ?_⟩⟩
    · rw [dec_extra3]; exact if_pos h
    · simp [extra3, randStep, if_pos h, download_github_npm_package, parse_url_extra3]
    · simp [extra3, randStep, if_neg h]
    · simp [extra3, randStep, if_neg h]
  · refine ⟨state_extra4 e w m r, fun h => ⟨?_, ?_⟩, fun h => ⟨?_, ?_⟩⟩
    · rw [dec_extra4]; exact if_pos h
    · simp only [extra4, randStep, if_pos h, download_github_container_image, parse_url_extra4,
        download_docker_image]
      split <;> simp
    · simp [extra4, randStep, if_neg h]
    · simp [extra4, randStep, if_neg h]

/-- Witness for claim C3 (amended): with every draw 1/2 and multiplier 1,
task 2 is skipped (1/2 is not below 0.30) and task 3 advances the stream
by exactly one draw. -/
theorem one_draw_per_task_amended_witness :
    (task2 constEnv trivWorld 1 (RState.mk 0 0)).1.2 = Outcome.skipped ∧
    (task3 constEnv trivWorld 1 (RState.mk 0 0)).2.2 = RState.mk 0 1 := by
  have h := one_draw_per_task_amended constEnv trivWorld 1 (RState.mk 0 0)
  exact ⟨(h.2.1.2.2 (by rw [rand_constEnv]; norm_num)).1, h.2.2.1.1⟩

/-- Counterexample to claim C3 as stated: in the environment where every
draw is 19/20 and the multiplier is 457/500, the first task consumes no
sample at all (its stream state is unchanged) and triggers even though
the available draw 19/20 is not below 1.00 times the multiplier, so "one
draw compared against the threshold, skipped otherwise" fails for it. -/
theorem one_draw_per_task_counterexample :
    ¬ (envHigh.rand 0 0
        < 1 * (week_probability_adjustment envHigh (envHigh.isoWeek 0) (RState.mk 0 0)).1) ∧
    (task1 envHigh trivWorld
        ((week_probability_adjustment envHigh (envHigh.isoWeek 0) (RState.mk 0 0)).1)
        (RState.mk 0 0)).2.2 = RState.mk 0 0 ∧
    (decisions envHigh trivWorld 0).head? = some Decision.triggered := by
  refine ⟨?_, rfl, ?_⟩
  · rw [mult_envHigh, rand_envHigh]
    norm_num
  · rw [decisions_eq_model]
    simp [decisionsModel]

/-- Claim C4: for every base probability p in [0,1] and every multiplier
produced by the weekly adjustment, comparing a stream draw against the raw
threshold p times the multiplier is extensionally the same as comparing it
against the clamped threshold min (max (p*mult) 0) 1, because the draw
always lies in [0,1). -/
theorem clamped_threshold_equiv (e : Env) (wk : ℕ) (r0 : RState) (s i : ℕ) (p : ℚ)
    (_hp0 : 0 ≤ p) (_hp1 : p ≤ 1) :
    (e.rand s i < p * (week_probability_adjustment e wk r0).1 ↔
     e.rand s i < min (max (p * (week_probability_adjustment e wk r0).1) 0) 1) := by
  have hd0 := e.rand_nonneg s i
  have hd1 := e.rand_lt_one s i
  constructor
  · intro h
    have ht0 : (0:ℚ) < p * (week_probability_adjustment e wk r0).1 := lt_of_le_of_lt hd0 h
    rw [max_eq_left ht0.le]
    exact lt_min h hd1
  · intro h
    have h1 : e.rand s i < max (p * (week_probability_adjustment e wk r0).1) 0 :=
      lt_of_lt_of_le h (min_le_left _ _)
    rcases le_or_lt (p * (week_probability_adjustment e wk r0).1) 0 with h2 | h2
    · rw [max_eq_right h2] at h1
      exact absurd h1 (not_lt.mpr hd0)
    · rwa [max_eq_left h2.le] at h1

/-- Witness for claim C4 at p = 1/2 in the constant environment. -/
theorem clamped_threshold_equiv_witness :
    (constEnv.rand 0 0 < 1/2 * (week_probability_adjustment constEnv 0 (RState.mk 0 0)).1 ↔
     constEnv.rand 0 0
       < min (max (1/2 * (week_probability_adjustment constEnv 0 (RState.mk 0 0)).1) 0) 1) :=
  clamped_threshold_equiv constEnv 0 (RState.mk 0 0) 0 0 (1/2) (by norm_num) (by norm_num)

/-- Claim C5: in the npm and crates tasks, a 200 existence probe routes
the fetch to the preferred identifier; a probe that reports any other
status or raises routes the fetch to the fixed fallback identifier with
no further check, and the task outcome is the download result alone, so a
probe error is never surfaced as a task failure. -/
theorem primary_fallback_resolution (e : Env) (w : World) (m : ℚ) (r : RState) :
    (e.rand r.seed r.idx < 85/100 * m →
      ((w.npmGet "fastgeotoolkit" = HttpResult.ok 200 →
        (task3 e w m r).2.1 = [Call.npmCheck "fastgeotoolkit", Call.npmPack "fastgeotoolkit"] ∧
        (task3 e w m r).1.2 = Outcome.ofBool (w.npmPack "fastgeotoolkit")) ∧
       (w.npmGet "fastgeotoolkit" ≠ HttpResult.ok 200 →
        (task3 e w m r).2.1 = [Call.npmCheck "fastgeotoolkit", Call.npmPack "heatmap-parse"] ∧
        (task3 e w m r).1.2 = Outcome.ofBool (w.npmPack "heatmap-parse")))) ∧
    (e.rand r.seed r.idx < 95/100 * m →
      ((w.cratesGet "fastgeotoolkit" = HttpResult.ok 200 →
        (task4 e w m r).2.1
            = [Call.cratesCheck "fastgeotoolkit", Call.cargoInstall "fastgeotoolkit"] ∧
        (task4 e w m r).1.2 = Outcome.ofBool (w.cargoInstall "fastgeotoolkit")) ∧
       (w.cratesGet "fastgeotoolkit" ≠ HttpResult.ok 200 →
        (task4 e w m r).2.1
            = [Call.cratesCheck "fastgeotoolkit", Call.cargoInstall "heatmap-parse"] ∧
        (task4 e w m r).1.2 = Outcome.ofBool (w.cargoInstall "heatmap-parse")))) := by
  constructor
  · intro h
    constructor
    · intro hok
      have hc : check_npm_package_exists w "fastgeotoolkit" = true := by
        simp [check_npm_package_exists, hok]
      simp [task3, randStep, if_pos h, hc, download_npm_package]
    · intro hne
      have hc : check_npm_package_exists w "fastgeotoolkit" = false := by
        rw [check_npm_package_exists]
        rcases hw : w.npmGet "fastgeotoolkit" with st | _
        · rw [hw] at hne
          have hst : st ≠ 200 := fun hst => hne (by rw [hst])
          simp [hst]
        · rfl
      simp [task3, randStep, if_pos h, hc, download_npm_package]
  · intro h
    constructor
    · intro hok
      have hc : check_crates_package_exists w "fastgeotoolkit" = true := by
        simp [check_crates_package_exists, hok]
      simp [task4, randStep, if_pos h, hc, download_crates_package]
    · intro hne
      have hc : check_crates_package_exists w "fastgeotoolkit" = false := by
        rw [check_crates_package_exists]
        rcases hw : w.cratesGet "fastgeotoolkit" with st | _
        · rw [hw] at hne
          have hst : st ≠ 200 := fun hst => hne (by rw [hst])
          simp [hst]
        · rfl
      simp [task4, randStep, if_pos h, hc, download_crates_package]

/-- Witness for claim C5: in a world where both probes raise, the
triggered npm task fetches the fallback heatmap-parse and its outcome is
exactly the download result (the probe exception is not a failure). -/
theorem primary_fallback_resolution_witness :
    (task3 constEnv exnWorld 1 (RState.mk 0 0)).2.1
      = [Call.npmCheck "fastgeotoolkit", Call.npmPack "heatmap-parse"] ∧
    (task3 constEnv exnWorld 1 (RState.mk 0 0)).1.2 = Outcome.success ∧
    (task4 constEnv exnWorld 1 (RState.mk 0 0)).1.2 = Outcome.failure := by
  have h := primary_fallback_resolution constEnv exnWorld 1 (RState.mk 0 0)
  have h3 := (h.1 (by rw [rand_constEnv]; norm_num)).2 (by decide)
  have h4 := (h.2 (by rw [rand_constEnv]; norm_num)).2 (by decide)
  exact ⟨h3.1, h3.2, h4.2⟩

/-- Claim C8: in a run where every draw is 1/2 and the weekly multiplier
is exactly 1, the five base tasks with probabilities 1.00, 0.30, 0.85,
0.95 and 0.40 come out triggered, skipped, triggered, triggered and
skipped, in that order. -/
theorem half_draw_scenario (e : Env) (w : World) (ts : ℕ)
    (hrand : ∀ s i, e.rand s i = 1/2)
    (hm : (week_probability_adjustment e (e.isoWeek ts) (RState.mk 0 0)).1 = 1) :
    (decisions e w ts).take 5
      = [Decision.triggered, Decision.skipped, Decision.triggered, Decision.triggered,
         Decision.skipped] := by
  rw [decisions_eq_model]
  by_cases h : ts ≤ cutoff_ts <;>
    norm_num [decisionsModel, decideTrig, hrand, hm, h]

/-- Witness for claim C8 in the environment with draws 1/2 and sine term
-1/15, whose weekly multiplier is exactly 1. -/
theorem half_draw_scenario_witness :
    (decisions envHalf trivWorld 0).take 5
      = [Decision.triggered, Decision.skipped, Decision.triggered, Decision.triggered,
         Decision.skipped] :=
  half_draw_scenario envHalf trivWorld 0 (fun _ _ => rfl) (mult_envHalf _)

end DownloadScript
